import Mathlib

/-!
Verification of the wallet / usage-ledger engine of the billing system.

The definitions below are a shallow embedding of the TypeScript sources:

* `packages/database/src/models/wallet.ts` — `WalletModel` (`getOrCreateWallet`,
  `deductCredits`, `grantCredits`, `resetFreeCredits`, `canAfford`, `reconcileBalance`)
  and `BillingModel` (`createUsageLedgerEntry`, `findUsageByIdempotencyKey`).
* `src/services/billing/index.ts` — `BillingService.canUserAfford`.
* `src/config/billing.ts` — `BILLING_CONFIG`.

Credit amounts are JavaScript numbers holding integers; they are modelled as `Int`
(so that subtraction behaves as in the source, with no hidden truncation).
Monetary/fractional quantities (the pre-check buffer multiplier, the 1% reconciliation
threshold) are modelled as `Rat`.  Date-valued fields (`updatedAt`, `freeResetAt`,
`subscriptionPeriodEnd`) play no role in any of the verified properties and are
omitted from the records.  Database persistence is modelled by explicit state
passing: a thrown TRPCError becomes the `Except.error` branch, and the transaction
semantics of the source (all writes or none) becomes "the new state is returned
only in the `Except.ok` branch".
-/

deriving instance DecidableEq for Except

/-- `CreditSource` from `wallet.ts`: `'free' | 'subscription' | 'package' | 'promo'`. -/
inductive CreditSource where
  | free
  | subscription
  | package
  | promo
deriving Repr, DecidableEq

/-- The credit fields of one `wallet_balances` row (`WalletBalance` in the schema). -/
structure WalletBalance where
  freeCredits : Int
  subscriptionCredits : Int
  packageCredits : Int
  totalCredits : Int
deriving Repr, DecidableEq

/-- Payload of `InsufficientCreditsError(required, available)` from `wallet.ts`. -/
structure InsufficientCredits where
  required : Int
  available : Int
deriving Repr, DecidableEq

/-- The value returned by `WalletModel.deductCredits`:
`{ source: deductedFrom!, remainingCredits: newTotalCredits }`.
`deductedFrom` is only assigned inside the branches of the deduction logic, so it
is modelled as `Option CreditSource` (`none` = the TypeScript `undefined`). -/
structure DeductOutcome where
  source : Option CreditSource
  remainingCredits : Int
deriving Repr, DecidableEq

/-- The local mutable variables of `WalletModel.deductCredits`
(`remainingToDeduct`, `deductedFrom`, `newPackageCredits`,
`newSubscriptionCredits`, `newFreeCredits`). -/
structure DeductState where
  remainingToDeduct : Int
  deductedFrom : Option CreditSource
  newPackageCredits : Int
  newSubscriptionCredits : Int
  newFreeCredits : Int
deriving Repr, DecidableEq

/-- The `case 'package' | 'subscription' | 'free'` switch of `deductCredits` used when a
preferred `source` is supplied.  A `'promo'` preference matches no case and leaves the
state unchanged.  The guards read the original `wallet` fields, exactly as the source. -/
def preferredDeduct (wallet : WalletBalance) (s : DeductState) (src : CreditSource) :
    DeductState :=
  match src with
  | .package =>
      if wallet.packageCredits ≥ s.remainingToDeduct then
        { s with newPackageCredits := s.newPackageCredits - s.remainingToDeduct,
                 remainingToDeduct := 0, deductedFrom := some .package }
      else s
  | .subscription =>
      if wallet.subscriptionCredits ≥ s.remainingToDeduct then
        { s with newSubscriptionCredits := s.newSubscriptionCredits - s.remainingToDeduct,
                 remainingToDeduct := 0, deductedFrom := some .subscription }
      else s
  | .free =>
      if wallet.freeCredits ≥ s.remainingToDeduct then
        { s with newFreeCredits := s.newFreeCredits - s.remainingToDeduct,
                 remainingToDeduct := 0, deductedFrom := some .free }
      else s
  | .promo => s

/-- First block of the automatic draw-down order of `deductCredits`
(`if (wallet.packageCredits > 0 && remainingToDeduct > 0) { ... }`). -/
def autoPackageStep (wallet : WalletBalance) (s : DeductState) : DeductState :=
  if wallet.packageCredits > 0 ∧ s.remainingToDeduct > 0 then
    let deductAmount := min wallet.packageCredits s.remainingToDeduct
    { s with newPackageCredits := s.newPackageCredits - deductAmount,
             remainingToDeduct := s.remainingToDeduct - deductAmount,
             deductedFrom := some .package }
  else s

/-- Second block of the automatic draw-down order of `deductCredits` (subscription). -/
def autoSubscriptionStep (wallet : WalletBalance) (s : DeductState) : DeductState :=
  if wallet.subscriptionCredits > 0 ∧ s.remainingToDeduct > 0 then
    let deductAmount := min wallet.subscriptionCredits s.remainingToDeduct
    { s with newSubscriptionCredits := s.newSubscriptionCredits - deductAmount,
             remainingToDeduct := s.remainingToDeduct - deductAmount,
             deductedFrom := some .subscription }
  else s

/-- Third block of the automatic draw-down order of `deductCredits` (free). -/
def autoFreeStep (wallet : WalletBalance) (s : DeductState) : DeductState :=
  if wallet.freeCredits > 0 ∧ s.remainingToDeduct > 0 then
    let deductAmount := min wallet.freeCredits s.remainingToDeduct
    { s with newFreeCredits := s.newFreeCredits - deductAmount,
             remainingToDeduct := s.remainingToDeduct - deductAmount,
             deductedFrom := some .free }
  else s

/-- The deduction logic of `WalletModel.deductCredits` between the balance guard and
the final `remainingToDeduct > 0` check: initialize the local variables from the
wallet row, then run either the preferred-source switch or the three automatic
draw-down blocks (package, then subscription, then free). -/
def deductLocals (wallet : WalletBalance) (credits : Int) (source : Option CreditSource) :
    DeductState :=
  let s0 : DeductState :=
    { remainingToDeduct := credits, deductedFrom := none,
      newPackageCredits := wallet.packageCredits,
      newSubscriptionCredits := wallet.subscriptionCredits,
      newFreeCredits := wallet.freeCredits }
  match source with
  | some src => preferredDeduct wallet s0 src
  | none => autoFreeStep wallet (autoSubscriptionStep wallet (autoPackageStep wallet s0))

/-- `WalletModel.deductCredits(userId, credits, source?)`, for a wallet row that exists
(the `!wallet` branch of the source throws `InsufficientCreditsError(credits, 0)` and is
handled by the callers that model the whole system state).  Returns the value the method
returns together with the updated wallet row written by the enclosing transaction;
a thrown `InsufficientCreditsError` is the `error` branch, in which case the
transaction performs no write. -/
def deductCredits (wallet : WalletBalance) (credits : Int) (source : Option CreditSource) :
    Except InsufficientCredits (DeductOutcome × WalletBalance) :=
  if wallet.totalCredits < credits then
    .error { required := credits, available := wallet.totalCredits }
  else
    let s := deductLocals wallet credits source
    if s.remainingToDeduct > 0 then
      .error { required := credits, available := wallet.totalCredits }
    else
      let newTotalCredits := s.newPackageCredits + s.newSubscriptionCredits + s.newFreeCredits
      .ok ({ source := s.deductedFrom, remainingCredits := newTotalCredits },
           { freeCredits := s.newFreeCredits,
             subscriptionCredits := s.newSubscriptionCredits,
             packageCredits := s.newPackageCredits,
             totalCredits := newTotalCredits })

/-- The wallet row after running `deductCredits` inside its transaction: on success the
updated row is committed, on a thrown error the transaction leaves the row untouched. -/
def applyDeduct (wallet : WalletBalance) (credits : Int) (source : Option CreditSource) :
    WalletBalance :=
  match deductCredits wallet credits source with
  | .ok (_, wallet') => wallet'
  | .error _ => wallet

/-- The bucket update of `WalletModel.grantCredits` (the `switch (source)` on lines
258-272 plus the `totalCredits` recomputation via `updates.x ?? wallet.x`):
`'free'` increments `freeCredits`, `'subscription'` increments `subscriptionCredits`,
and both `'package'` and `'promo'` fall through to the same `packageCredits` branch. -/
def grantWalletUpdate (wallet : WalletBalance) (credits : Int) (source : CreditSource) :
    WalletBalance :=
  match source with
  | .free =>
      { freeCredits := wallet.freeCredits + credits,
        subscriptionCredits := wallet.subscriptionCredits,
        packageCredits := wallet.packageCredits,
        totalCredits :=
          (wallet.freeCredits + credits) + wallet.subscriptionCredits + wallet.packageCredits }
  | .subscription =>
      { freeCredits := wallet.freeCredits,
        subscriptionCredits := wallet.subscriptionCredits + credits,
        packageCredits := wallet.packageCredits,
        totalCredits :=
          wallet.freeCredits + (wallet.subscriptionCredits + credits) + wallet.packageCredits }
  | .package | .promo =>
      { freeCredits := wallet.freeCredits,
        subscriptionCredits := wallet.subscriptionCredits,
        packageCredits := wallet.packageCredits + credits,
        totalCredits :=
          wallet.freeCredits + wallet.subscriptionCredits + (wallet.packageCredits + credits) }

/-- The wallet update of `WalletModel.resetFreeCredits`: `freeCredits` is overwritten with
`amount` and `totalCredits` becomes `amount + subscriptionCredits + packageCredits`. -/
def resetFreeWalletUpdate (wallet : WalletBalance) (amount : Int) : WalletBalance :=
  { freeCredits := amount,
    subscriptionCredits := wallet.subscriptionCredits,
    packageCredits := wallet.packageCredits,
    totalCredits := amount + wallet.subscriptionCredits + wallet.packageCredits }

/-- Status column of a `usage_ledger` row. -/
inductive UsageStatus where
  | pending
  | completed
  | refunded
deriving Repr, DecidableEq

/-- The fields of one `credit_grants` row that the verified properties read. -/
structure CreditGrantRec where
  source : CreditSource
  credits : Int
deriving Repr, DecidableEq

/-- The fields of one `usage_ledger` row that balance reconciliation reads. -/
structure LedgerRec where
  credits : Int
  status : UsageStatus
deriving Repr, DecidableEq

/-- The durable state of one user: the optional `wallet_balances` row, the append-only
`credit_grants` log and the append-only `usage_ledger` log. -/
structure SysState where
  wallet : Option WalletBalance
  grants : List CreditGrantRec
  ledger : List LedgerRec
deriving Repr, DecidableEq

/-- A user before any billing operation: no wallet row, empty logs. -/
def initialSysState : SysState := { wallet := none, grants := [], ledger := [] }

/-- The `newWallet` literal of `WalletModel.getOrCreateWallet`: 100000 initial free
credits (`freeCredits: 100000, subscriptionCredits: 0, packageCredits: 0,
totalCredits: 100000`). -/
def initialWallet : WalletBalance :=
  { freeCredits := 100000, subscriptionCredits := 0, packageCredits := 0,
    totalCredits := 100000 }

/-- `WalletModel.getOrCreateWallet`: returns the existing row, or inserts `initialWallet`
and records the matching initial `'free'` grant of 100000 credits. -/
def getOrCreateWallet (s : SysState) : WalletBalance × SysState :=
  match s.wallet with
  | some w => (w, s)
  | none =>
      (initialWallet,
       { s with wallet := some initialWallet,
                grants := s.grants ++ [{ source := .free, credits := 100000 }] })

/-- `WalletModel.grantCredits`: inserts the `credit_grants` row, materializes the wallet
via `getOrCreateWallet`, then applies the bucket increment. -/
def execGrant (s : SysState) (credits : Int) (source : CreditSource) : SysState :=
  let s1 := { s with grants := s.grants ++ [{ source := source, credits := credits }] }
  let (w, s2) := getOrCreateWallet s1
  { s2 with wallet := some (grantWalletUpdate w credits source) }

/-- `WalletModel.deductCredits` acting on the whole user state: when no wallet row
exists the method throws `InsufficientCreditsError(credits, 0)` and mutates nothing. -/
def execDeduct (s : SysState) (credits : Int) (source : Option CreditSource) : SysState :=
  match s.wallet with
  | none => s
  | some w => { s with wallet := some (applyDeduct w credits source) }

/-- Modelled from the spec: the atomic `recordUsage` unit of §4.2 (insert the
`usage_ledger` entry, run `deductCredits`, mark the entry `Completed`, all in one
transaction).  `BillingService.recordUsage` in `src/services/billing/index.ts` leaves
this transaction as commented-out TODO code around a mock, so the pairing of the
ledger insert with the deduction is taken from the spec; the deduction itself is the
real `deductCredits` above.  On an `InsufficientCredits` throw nothing is written. -/
def execRecordUsage (s : SysState) (credits : Int) : SysState :=
  match s.wallet with
  | none => s
  | some w =>
      match deductCredits w credits none with
      | .ok (_, w') =>
          { s with wallet := some w',
                   ledger := s.ledger ++ [{ credits := credits, status := .completed }] }
      | .error _ => s

/-- `WalletModel.resetFreeCredits`: materializes the wallet, overwrites the free bucket
with `amount`, and records a `'free'` grant of the full `amount`. -/
def execResetFree (s : SysState) (amount : Int) : SysState :=
  let (w, s1) := getOrCreateWallet s
  { s1 with wallet := some (resetFreeWalletUpdate w amount),
            grants := s1.grants ++ [{ source := .free, credits := amount }] }

/-- One call into the wallet engine. -/
inductive WalletOp where
  | getOrCreate
  | grant (credits : Int) (source : CreditSource)
  | deduct (credits : Int) (source : Option CreditSource)
  | recordUsage (credits : Int)
  | resetFree (amount : Int)
deriving Repr, DecidableEq

/-- Interpreter for one wallet-engine call. -/
def execOp (s : SysState) (op : WalletOp) : SysState :=
  match op with
  | .getOrCreate => (getOrCreateWallet s).2
  | .grant credits source => execGrant s credits source
  | .deduct credits source => execDeduct s credits source
  | .recordUsage credits => execRecordUsage s credits
  | .resetFree amount => execResetFree s amount

/-- Run a sequence of wallet-engine calls from left to right. -/
def execOps (s : SysState) (ops : List WalletOp) : SysState :=
  ops.foldl execOp s

/-- Total credits held in the (possibly absent) wallet row. -/
def sysWalletTotal (s : SysState) : Int :=
  match s.wallet with
  | some w => w.totalCredits
  | none => 0

/-- Sum of all `credit_grants.credits` of the user. -/
def sumGrants (s : SysState) : Int := (s.grants.map (·.credits)).sum

/-- Sum of `usage_ledger.credits` over entries with status `completed`. -/
def sumCompletedLedger (s : SysState) : Int :=
  ((s.ledger.filter (fun e => e.status == .completed)).map (·.credits)).sum

/-- The conservation property of the spec: wallet total = Σ grants − Σ completed usage. -/
def Conservation (s : SysState) : Prop :=
  sysWalletTotal s = sumGrants s - sumCompletedLedger s

instance (s : SysState) : Decidable (Conservation s) :=
  inferInstanceAs (Decidable (_ = _))

/-- The `WalletBalance` invariant: the cached total equals the sum of the three buckets
and no bucket is negative. -/
def WalletInv (w : WalletBalance) : Prop :=
  w.totalCredits = w.freeCredits + w.subscriptionCredits + w.packageCredits ∧
  0 ≤ w.freeCredits ∧ 0 ≤ w.subscriptionCredits ∧ 0 ≤ w.packageCredits

instance (w : WalletBalance) : Decidable (WalletInv w) :=
  inferInstanceAs (Decidable (_ ∧ _ ∧ _ ∧ _))

/-- The wallet invariant lifted to the user state (vacuous before the row exists). -/
def SysWalletInv (s : SysState) : Prop :=
  match s.wallet with
  | none => True
  | some w => WalletInv w

instance (s : SysState) : Decidable (SysWalletInv s) :=
  match h : s.wallet with
  | none => .isTrue (by simp [SysWalletInv, h])
  | some w => decidable_of_iff (WalletInv w) (by simp [SysWalletInv, h])

/-- `BILLING_CONFIG.PRE_CHECK_BUFFER_MULTIPLIER` from `src/config/billing.ts` (1.2). -/
def PRE_CHECK_BUFFER_MULTIPLIER : ℚ := 1.2

/-- `BILLING_CONFIG.RECONCILIATION_THRESHOLD_PERCENT` from `src/config/billing.ts` (1). -/
def RECONCILIATION_THRESHOLD_PERCENT : ℚ := 1

/-- The fields of the `AffordabilityCheck` result of `BillingService.canUserAfford`
used by the verified properties. -/
structure AffordabilityCheck where
  canAfford : Bool
  available : Int
  required : Int
deriving Repr, DecidableEq

/-- `BillingService.canUserAfford`, with the balance read (`getWalletBalance`) made an
explicit argument: `required = Math.ceil(estimatedCredits * PRE_CHECK_BUFFER_MULTIPLIER)`
and `canAfford = balance.totalCredits >= required`. -/
def canUserAfford (balance : WalletBalance) (estimatedCredits : ℚ) : AffordabilityCheck :=
  let required := ⌈estimatedCredits * PRE_CHECK_BUFFER_MULTIPLIER⌉
  { canAfford := decide (required ≤ balance.totalCredits),
    available := balance.totalCredits,
    required := required }

/-- The result record of `WalletModel.reconcileBalance`. -/
structure ReconcileReport where
  walletTotal : Int
  calculatedTotal : Int
  difference : Int
  needsAdjustment : Bool
deriving Repr, DecidableEq

/-- `WalletModel.reconcileBalance`, with the storage reads made explicit arguments:
`totalGranted` sums every `credit_grants.credits` of the user, `totalUsed` sums every
`usage_ledger.credits` of the user (the source query has no status filter),
`difference = Math.abs(wallet.totalCredits - calculatedTotal)` and
`needsAdjustment = difference > wallet.totalCredits * 0.01`. -/
def reconcileBalance (wallet : WalletBalance) (grants : List CreditGrantRec)
    (ledger : List LedgerRec) : ReconcileReport :=
  let totalGranted := (grants.map (·.credits)).sum
  let totalUsed := (ledger.map (·.credits)).sum
  let calculatedTotal := totalGranted - totalUsed
  let difference := |wallet.totalCredits - calculatedTotal|
  let needsAdjustment :=
    decide ((difference : ℚ) > (wallet.totalCredits : ℚ) * (RECONCILIATION_THRESHOLD_PERCENT / 100))
  { walletTotal := wallet.totalCredits, calculatedTotal := calculatedTotal,
    difference := difference, needsAdjustment := needsAdjustment }

/-- Modelled from the spec: the reconciliation computation as the spec sentence states
it, with `totalUsed` restricted to ledger entries whose status is `Completed`
(`calculatedBalance = Σ CreditGrant.credits − Σ UsageLedgerEntry.credits
(status=Completed)`).  Used only to compare against `reconcileBalance` above. -/
def reconcileBalanceSpec (wallet : WalletBalance) (grants : List CreditGrantRec)
    (ledger : List LedgerRec) : ReconcileReport :=
  let totalGranted := (grants.map (·.credits)).sum
  let totalUsed := ((ledger.filter (fun e => e.status == .completed)).map (·.credits)).sum
  let calculatedTotal := totalGranted - totalUsed
  let difference := |wallet.totalCredits - calculatedTotal|
  let needsAdjustment :=
    decide ((difference : ℚ) > (wallet.totalCredits : ℚ) * (RECONCILIATION_THRESHOLD_PERCENT / 100))
  { walletTotal := wallet.totalCredits, calculatedTotal := calculatedTotal,
    difference := difference, needsAdjustment := needsAdjustment }

/-- The fields of one `usage_ledger` row that the idempotency machinery of
`BillingModel` reads and writes. -/
structure UsageLedgerEntryRec where
  id : String
  userId : String
  credits : Int
  status : UsageStatus
  idempotencyKey : String
deriving Repr, DecidableEq

/-- `BillingModel.findUsageByIdempotencyKey`: first ledger entry with the given key. -/
def findUsageByIdempotencyKey (ledger : List UsageLedgerEntryRec) (key : String) :
    Option UsageLedgerEntryRec :=
  ledger.find? (fun e => e.idempotencyKey == key)

/-- The errors of `BillingModel` relevant here: `IdempotencyError`
(`CONFLICT`, message `Operation already processed`). -/
inductive BillingFailure where
  | idempotencyConflict
deriving Repr, DecidableEq

/-- The inputs of `BillingModel.createUsageLedgerEntry` read by the verified
properties (`RecordUsageParams` in the source). -/
structure RecordUsageParams where
  userId : String
  credits : Int
  idempotencyKey : String
deriving Repr, DecidableEq

/-- `BillingModel.createUsageLedgerEntry`: if an entry with the same
`idempotencyKey` already exists it throws `IdempotencyError`; otherwise it inserts a
new entry with status `'pending'`.  `generateId()` is modelled by the explicit
`newId` argument.  Returns the created entry and the extended ledger. -/
def createUsageLedgerEntry (newId : String) (ledger : List UsageLedgerEntryRec)
    (params : RecordUsageParams) :
    Except BillingFailure (UsageLedgerEntryRec × List UsageLedgerEntryRec) :=
  match findUsageByIdempotencyKey ledger params.idempotencyKey with
  | some _ => .error .idempotencyConflict
  | none =>
      let entry : UsageLedgerEntryRec :=
        { id := newId, userId := params.userId, credits := params.credits,
          status := .pending, idempotencyKey := params.idempotencyKey }
      .ok (entry, ledger ++ [entry])

/-- The ledger after a `createUsageLedgerEntry` call: the insert is committed on
success, and a thrown `IdempotencyError` leaves the ledger untouched. -/
def runCreateUsageLedgerEntry (newId : String) (ledger : List UsageLedgerEntryRec)
    (params : RecordUsageParams) : List UsageLedgerEntryRec :=
  match createUsageLedgerEntry newId ledger params with
  | .ok (_, ledger') => ledger'
  | .error _ => ledger

/-- Number of ledger entries carrying a given idempotency key. -/
def countEntriesWithKey (ledger : List UsageLedgerEntryRec) (key : String) : Nat :=
  (ledger.filter (fun e => e.idempotencyKey == key)).length

/-- Positivity of the credit amount carried by a wallet-engine call (the spec requires
`credits` to be a positive integer). -/
def OpPositive : WalletOp → Prop
  | .getOrCreate => True
  | .grant c _ => 0 < c
  | .deduct c _ => 0 < c
  | .recordUsage c => 0 < c
  | .resetFree a => 0 < a

instance : DecidablePred OpPositive := fun op =>
  match op with
  | .getOrCreate => .isTrue trivial
  | .grant c _ => inferInstanceAs (Decidable (0 < c))
  | .deduct c _ => inferInstanceAs (Decidable (0 < c))
  | .recordUsage c => inferInstanceAs (Decidable (0 < c))
  | .resetFree a => inferInstanceAs (Decidable (0 < a))

/-- Every call in the sequence carries a positive amount. -/
def OpsPositive (ops : List WalletOp) : Prop := ∀ op ∈ ops, OpPositive op

instance (ops : List WalletOp) : Decidable (OpsPositive ops) :=
  inferInstanceAs (Decidable (∀ op ∈ ops, OpPositive op))

/-- Calls for which conservation can be tracked: wallet creation, grants with positive
amounts, and usage recordings with positive amounts (where the deduction is paired with
its completed ledger entry).  `resetFreeCredits` is excluded — it records a grant of the
full reset amount while changing the wallet only by the delta — and a bare `deduct` is
excluded because in the engine a deduction reaches the wallet only through the
`recordUsage` unit that also writes the ledger entry. -/
def OpConservative : WalletOp → Prop
  | .getOrCreate => True
  | .grant c _ => 0 < c
  | .deduct _ _ => False
  | .recordUsage c => 0 < c
  | .resetFree _ => False

instance : DecidablePred OpConservative := fun op =>
  match op with
  | .getOrCreate => .isTrue trivial
  | .grant c _ => inferInstanceAs (Decidable (0 < c))
  | .deduct _ _ => .isFalse id
  | .recordUsage c => inferInstanceAs (Decidable (0 < c))
  | .resetFree _ => .isFalse id

/-- Every call in the sequence is conservation-tracked. -/
def OpsConservative (ops : List WalletOp) : Prop := ∀ op ∈ ops, OpConservative op

instance (ops : List WalletOp) : Decidable (OpsConservative ops) :=
  inferInstanceAs (Decidable (∀ op ∈ ops, OpConservative op))

/-- The package block of the automatic order subtracts exactly
`min(packageCredits, remainingToDeduct)` and touches nothing else. -/
theorem autoPackageStep_spec (w : WalletBalance) (s : DeductState)
    (hp : 0 ≤ w.packageCredits) (hr : 0 ≤ s.remainingToDeduct) :
    (autoPackageStep w s).newPackageCredits
        = s.newPackageCredits - min w.packageCredits s.remainingToDeduct ∧
    (autoPackageStep w s).remainingToDeduct
        = s.remainingToDeduct - min w.packageCredits s.remainingToDeduct ∧
    (autoPackageStep w s).newSubscriptionCredits = s.newSubscriptionCredits ∧
    (autoPackageStep w s).newFreeCredits = s.newFreeCredits := by
  unfold autoPackageStep
  split_ifs with h
  · exact ⟨rfl, rfl, rfl, rfl⟩
  · exact ⟨by omega, by omega, rfl, rfl⟩

/-- The subscription block of the automatic order subtracts exactly
`min(subscriptionCredits, remainingToDeduct)` and touches nothing else. -/
theorem autoSubscriptionStep_spec (w : WalletBalance) (s : DeductState)
    (hs : 0 ≤ w.subscriptionCredits) (hr : 0 ≤ s.remainingToDeduct) :
    (autoSubscriptionStep w s).newSubscriptionCredits
        = s.newSubscriptionCredits - min w.subscriptionCredits s.remainingToDeduct ∧
    (autoSubscriptionStep w s).remainingToDeduct
        = s.remainingToDeduct - min w.subscriptionCredits s.remainingToDeduct ∧
    (autoSubscriptionStep w s).newPackageCredits = s.newPackageCredits ∧
    (autoSubscriptionStep w s).newFreeCredits = s.newFreeCredits := by
  unfold autoSubscriptionStep
  split_ifs with h
  · exact ⟨rfl, rfl, rfl, rfl⟩
  · exact ⟨by omega, by omega, rfl, rfl⟩

/-- The free block of the automatic order subtracts exactly
`min(freeCredits, remainingToDeduct)` and touches nothing else. -/
theorem autoFreeStep_spec (w : WalletBalance) (s : DeductState)
    (hf : 0 ≤ w.freeCredits) (hr : 0 ≤ s.remainingToDeduct) :
    (autoFreeStep w s).newFreeCredits
        = s.newFreeCredits - min w.freeCredits s.remainingToDeduct ∧
    (autoFreeStep w s).remainingToDeduct
        = s.remainingToDeduct - min w.freeCredits s.remainingToDeduct ∧
    (autoFreeStep w s).newPackageCredits = s.newPackageCredits ∧
    (autoFreeStep w s).newSubscriptionCredits = s.newSubscriptionCredits := by
  unfold autoFreeStep
  split_ifs with h
  · exact ⟨rfl, rfl, rfl, rfl⟩
  · exact ⟨by omega, by omega, rfl, rfl⟩

/-- Running the three automatic blocks drains the buckets greedily in the order
package, subscription, free: each bucket loses the minimum of its balance and the
amount still owed at that point. -/
theorem deductLocals_none_spec (w : WalletBalance) (c : Int)
    (hp : 0 ≤ w.packageCredits) (hs : 0 ≤ w.subscriptionCredits) (hf : 0 ≤ w.freeCredits)
    (hc : 0 ≤ c) :
    (deductLocals w c none).newPackageCredits = w.packageCredits - min w.packageCredits c ∧
    (deductLocals w c none).newSubscriptionCredits
      = w.subscriptionCredits - min w.subscriptionCredits (c - min w.packageCredits c) ∧
    (deductLocals w c none).newFreeCredits
      = w.freeCredits - min w.freeCredits
          (c - min w.packageCredits c
             - min w.subscriptionCredits (c - min w.packageCredits c)) ∧
    (deductLocals w c none).remainingToDeduct
      = c - min w.packageCredits c
          - min w.subscriptionCredits (c - min w.packageCredits c)
          - min w.freeCredits
              (c - min w.packageCredits c
                 - min w.subscriptionCredits (c - min w.packageCredits c)) := by
  obtain ⟨h1p, h1r, h1s, h1f⟩ := autoPackageStep_spec w
    { remainingToDeduct := c, deductedFrom := none,
      newPackageCredits := w.packageCredits,
      newSubscriptionCredits := w.subscriptionCredits,
      newFreeCredits := w.freeCredits } hp hc
  obtain ⟨h2s, h2r, h2p, h2f⟩ := autoSubscriptionStep_spec w
    (autoPackageStep w
      { remainingToDeduct := c, deductedFrom := none,
        newPackageCredits := w.packageCredits,
        newSubscriptionCredits := w.subscriptionCredits,
        newFreeCredits := w.freeCredits }) hs (by rw [h1r]; omega)
  obtain ⟨h3f, h3r, h3p, h3s⟩ := autoFreeStep_spec w
    (autoSubscriptionStep w (autoPackageStep w
      { remainingToDeduct := c, deductedFrom := none,
        newPackageCredits := w.packageCredits,
        newSubscriptionCredits := w.subscriptionCredits,
        newFreeCredits := w.freeCredits })) hf (by rw [h2r, h1r]; omega)
  have hun : deductLocals w c none
      = autoFreeStep w (autoSubscriptionStep w (autoPackageStep w
          { remainingToDeduct := c, deductedFrom := none,
            newPackageCredits := w.packageCredits,
            newSubscriptionCredits := w.subscriptionCredits,
            newFreeCredits := w.freeCredits })) := rfl
  rw [hun]
  refine ⟨?_, ?_, ?_, ?_⟩
  · rw [h3p, h2p, h1p]
  · rw [h3s, h2s, h1s, h1r]
  · rw [h3f, h2f, h1f, h2r, h1r]
  · rw [h3r, h2r, h1r]

/-- `deductCredits` commits when the balance guard passes and nothing is left owed. -/
theorem deductCredits_eq_ok (w : WalletBalance) (c : Int) (src : Option CreditSource)
    (h1 : ¬ w.totalCredits < c)
    (h2 : ¬ (deductLocals w c src).remainingToDeduct > 0) :
    deductCredits w c src =
      .ok ({ source := (deductLocals w c src).deductedFrom,
             remainingCredits := (deductLocals w c src).newPackageCredits
               + (deductLocals w c src).newSubscriptionCredits
               + (deductLocals w c src).newFreeCredits },
           { freeCredits := (deductLocals w c src).newFreeCredits,
             subscriptionCredits := (deductLocals w c src).newSubscriptionCredits,
             packageCredits := (deductLocals w c src).newPackageCredits,
             totalCredits := (deductLocals w c src).newPackageCredits
               + (deductLocals w c src).newSubscriptionCredits
               + (deductLocals w c src).newFreeCredits }) := by
  simp only [deductCredits]
  rw [if_neg h1, if_neg h2]

/-- `deductCredits` throws `InsufficientCreditsError(credits, totalCredits)` when the
cached total does not cover the request. -/
theorem deductCredits_eq_error_low (w : WalletBalance) (c : Int) (src : Option CreditSource)
    (h1 : w.totalCredits < c) :
    deductCredits w c src = .error { required := c, available := w.totalCredits } := by
  simp only [deductCredits]
  rw [if_pos h1]

/-- `deductCredits` throws `InsufficientCreditsError(credits, totalCredits)` when the
deduction logic leaves part of the amount owed. -/
theorem deductCredits_eq_error_remaining (w : WalletBalance) (c : Int)
    (src : Option CreditSource) (h1 : ¬ w.totalCredits < c)
    (h2 : (deductLocals w c src).remainingToDeduct > 0) :
    deductCredits w c src = .error { required := c, available := w.totalCredits } := by
  simp only [deductCredits]
  rw [if_neg h1, if_pos h2]

/-- Inversion: a successful `deductCredits` implies the guard passed, nothing is left
owed, and the committed wallet row is the one assembled from the local variables. -/
theorem deductCredits_ok_inversion (w : WalletBalance) (c : Int) (src : Option CreditSource)
    (res : DeductOutcome) (w' : WalletBalance)
    (h : deductCredits w c src = .ok (res, w')) :
    ¬ w.totalCredits < c ∧ (deductLocals w c src).remainingToDeduct ≤ 0 ∧
    w' = { freeCredits := (deductLocals w c src).newFreeCredits,
           subscriptionCredits := (deductLocals w c src).newSubscriptionCredits,
           packageCredits := (deductLocals w c src).newPackageCredits,
           totalCredits := (deductLocals w c src).newPackageCredits
             + (deductLocals w c src).newSubscriptionCredits
             + (deductLocals w c src).newFreeCredits } := by
  simp only [deductCredits] at h
  split_ifs at h with h1 h2
  simp only [Except.ok.injEq, Prod.mk.injEq] at h
  exact ⟨h1, by omega, h.2.symm⟩

/-- `grantCredits` keeps the wallet invariant: the recomputed total is the bucket sum
and, for a non-negative amount, no bucket goes negative. -/
theorem grantWalletUpdate_inv (w : WalletBalance) (c : Int) (src : CreditSource)
    (hinv : WalletInv w) (hc : 0 ≤ c) : WalletInv (grantWalletUpdate w c src) := by
  obtain ⟨h1, h2, h3, h4⟩ := hinv
  cases src <;> simp [grantWalletUpdate, WalletInv] <;> omega

/-- `grantCredits` raises the cached total by exactly the granted amount, provided the
total was the bucket sum before the call. -/
theorem grantWalletUpdate_total (w : WalletBalance) (c : Int) (src : CreditSource)
    (hsum : w.totalCredits = w.freeCredits + w.subscriptionCredits + w.packageCredits) :
    (grantWalletUpdate w c src).totalCredits = w.totalCredits + c := by
  cases src <;> simp [grantWalletUpdate] <;> omega

/-- `resetFreeCredits` keeps the wallet invariant for a non-negative reset amount. -/
theorem resetFreeWalletUpdate_inv (w : WalletBalance) (amount : Int)
    (hinv : WalletInv w) (ha : 0 ≤ amount) : WalletInv (resetFreeWalletUpdate w amount) := by
  obtain ⟨h1, h2, h3, h4⟩ := hinv
  simp [resetFreeWalletUpdate, WalletInv]
  omega

/-- `getOrCreateWallet` on a user without a wallet row inserts the initial row and
records the initial free grant. -/
theorem getOrCreateWallet_none (s : SysState) (h : s.wallet = none) :
    getOrCreateWallet s = (initialWallet,
      { s with wallet := some initialWallet,
               grants := s.grants ++ [{ source := .free, credits := 100000 }] }) := by
  simp only [getOrCreateWallet, h]

/-- `getOrCreateWallet` on a user with a wallet row returns it and changes nothing. -/
theorem getOrCreateWallet_some (s : SysState) (w : WalletBalance) (h : s.wallet = some w) :
    getOrCreateWallet s = (w, s) := by
  simp only [getOrCreateWallet, h]

/-- A successful `deductCredits` preserves the wallet invariant and lowers the cached
total by exactly the deducted amount. -/
theorem deductCredits_ok_spec (w : WalletBalance) (c : Int) (src : Option CreditSource)
    (res : DeductOutcome) (w' : WalletBalance) (hinv : WalletInv w) (hpos : 0 < c)
    (h : deductCredits w c src = .ok (res, w')) :
    WalletInv w' ∧ w'.totalCredits = w.totalCredits - c := by
  obtain ⟨hsum, hf, hs, hp⟩ := hinv
  obtain ⟨h1, h2, hw'⟩ := deductCredits_ok_inversion w c src res w' h
  subst hw'
  match src with
  | none =>
      obtain ⟨hP, hS, hF, hR⟩ := deductLocals_none_spec w c hp hs hf (le_of_lt hpos)
      rw [hR] at h2
      refine ⟨⟨?_, ?_, ?_, ?_⟩, ?_⟩ <;> simp [hP, hS, hF] <;> omega
  | some .package =>
      simp only [deductLocals, preferredDeduct] at h2 ⊢
      split_ifs at h2 ⊢ with hcond
      · refine ⟨⟨?_, ?_, ?_, ?_⟩, ?_⟩ <;> simp <;> omega
      · simp at h2; omega
  | some .subscription =>
      simp only [deductLocals, preferredDeduct] at h2 ⊢
      split_ifs at h2 ⊢ with hcond
      · refine ⟨⟨?_, ?_, ?_, ?_⟩, ?_⟩ <;> simp <;> omega
      · simp at h2; omega
  | some .free =>
      simp only [deductLocals, preferredDeduct] at h2 ⊢
      split_ifs at h2 ⊢ with hcond
      · refine ⟨⟨?_, ?_, ?_, ?_⟩, ?_⟩ <;> simp <;> omega
      · simp at h2; omega
  | some .promo =>
      simp only [deductLocals, preferredDeduct] at h2
      omega

/-- The initial wallet row satisfies the invariant. -/
theorem initialWallet_inv : WalletInv initialWallet := by decide

/-- The committed result of a `deductCredits` transaction keeps the wallet invariant. -/
theorem applyDeduct_inv (w : WalletBalance) (c : Int) (src : Option CreditSource)
    (hinv : WalletInv w) (hpos : 0 < c) : WalletInv (applyDeduct w c src) := by
  unfold applyDeduct
  match h : deductCredits w c src with
  | .error e => exact hinv
  | .ok (res, w') => exact (deductCredits_ok_spec w c src res w' hinv hpos h).1

/-- Every wallet-engine call with a positive amount preserves the wallet invariant. -/
theorem execOp_inv (s : SysState) (op : WalletOp)
    (hs : SysWalletInv s) (hop : OpPositive op) : SysWalletInv (execOp s op) := by
  match op with
  | .getOrCreate =>
      match h : s.wallet with
      | none =>
          simp only [execOp, getOrCreateWallet_none s h, SysWalletInv]
          exact initialWallet_inv
      | some w =>
          simp only [execOp, getOrCreateWallet_some s w h, SysWalletInv, h]
          simpa [SysWalletInv, h] using hs
  | .grant c src =>
      have hc : 0 ≤ c := le_of_lt hop
      match h : s.wallet with
      | none =>
          have h1 : ({ s with grants := s.grants
              ++ [{ source := src, credits := c }] } : SysState).wallet = none := h
          simp only [execOp, execGrant, getOrCreateWallet_none _ h1, SysWalletInv]
          exact grantWalletUpdate_inv _ c src initialWallet_inv hc
      | some w =>
          have hw : WalletInv w := by simpa [SysWalletInv, h] using hs
          have h1 : ({ s with grants := s.grants
              ++ [{ source := src, credits := c }] } : SysState).wallet = some w := h
          simp only [execOp, execGrant, getOrCreateWallet_some _ w h1, SysWalletInv]
          exact grantWalletUpdate_inv _ c src hw hc
  | .deduct c src =>
      match h : s.wallet with
      | none => simpa [execOp, execDeduct, h] using hs
      | some w =>
          have hw : WalletInv w := by simpa [SysWalletInv, h] using hs
          simp only [execOp, execDeduct, h, SysWalletInv]
          exact applyDeduct_inv w c src hw hop
  | .recordUsage c =>
      match h : s.wallet with
      | none => simpa [execOp, execRecordUsage, h] using hs
      | some w =>
          have hw : WalletInv w := by simpa [SysWalletInv, h] using hs
          simp only [execOp, execRecordUsage, h]
          match hd : deductCredits w c none with
          | .error e => simpa [SysWalletInv, h] using hs
          | .ok (res, w') =>
              simp only [SysWalletInv]
              exact (deductCredits_ok_spec w c none res w' hw hop hd).1
  | .resetFree a =>
      have ha : 0 ≤ a := le_of_lt hop
      match h : s.wallet with
      | none =>
          simp only [execOp, execResetFree, getOrCreateWallet_none s h, SysWalletInv]
          exact resetFreeWalletUpdate_inv _ a initialWallet_inv ha
      | some w =>
          have hw : WalletInv w := by simpa [SysWalletInv, h] using hs
          simp only [execOp, execResetFree, getOrCreateWallet_some s w h, SysWalletInv]
          exact resetFreeWalletUpdate_inv _ a hw ha

/-- Conservation-tracked wallet-engine calls preserve the conservation equation. -/
theorem execOp_conservation (s : SysState) (op : WalletOp)
    (hinv : SysWalletInv s) (hcons : Conservation s) (hop : OpConservative op) :
    Conservation (execOp s op) := by
  match op with
  | .getOrCreate =>
      match h : s.wallet with
      | none =>
          simp only [Conservation, sysWalletTotal, h, sumGrants, sumCompletedLedger] at hcons
          simp only [execOp, getOrCreateWallet_none s h]
          simp [Conservation, sysWalletTotal, sumGrants, sumCompletedLedger, initialWallet]
          omega
      | some w =>
          simpa [execOp, getOrCreateWallet_some s w h] using hcons
  | .grant c src =>
      match h : s.wallet with
      | none =>
          have h1 : ({ s with grants := s.grants
              ++ [{ source := src, credits := c }] } : SysState).wallet = none := h
          have htot : (grantWalletUpdate initialWallet c src).totalCredits = 100000 + c := by
            rw [grantWalletUpdate_total initialWallet c src (by decide)]; rfl
          simp only [Conservation, sysWalletTotal, h, sumGrants, sumCompletedLedger] at hcons
          simp only [execOp, execGrant, getOrCreateWallet_none _ h1]
          simp [Conservation, sysWalletTotal, sumGrants, sumCompletedLedger, htot]
          omega
      | some w =>
          have hw : WalletInv w := by simpa [SysWalletInv, h] using hinv
          have h1 : ({ s with grants := s.grants
              ++ [{ source := src, credits := c }] } : SysState).wallet = some w := h
          have htot := grantWalletUpdate_total w c src hw.1
          simp only [Conservation, sysWalletTotal, h, sumGrants, sumCompletedLedger] at hcons
          simp only [execOp, execGrant, getOrCreateWallet_some _ w h1]
          simp [Conservation, sysWalletTotal, sumGrants, sumCompletedLedger, htot]
          omega
  | .recordUsage c =>
      match h : s.wallet with
      | none => simpa [execOp, execRecordUsage, h] using hcons
      | some w =>
          have hw : WalletInv w := by simpa [SysWalletInv, h] using hinv
          simp only [Conservation, sysWalletTotal, h, sumGrants, sumCompletedLedger] at hcons
          simp only [execOp, execRecordUsage, h]
          match hd : deductCredits w c none with
          | .error e =>
              simpa [Conservation, sysWalletTotal, h, sumGrants, sumCompletedLedger] using hcons
          | .ok (res, w') =>
              have htot := (deductCredits_ok_spec w c none res w' hw hop hd).2
              simp [Conservation, sysWalletTotal, sumGrants, sumCompletedLedger, htot,
                    List.filter_append]
              omega

/-- A conservation-tracked call always carries a positive amount. -/
theorem opConservative_positive (op : WalletOp) (h : OpConservative op) : OpPositive op :=
  match op with
  | .getOrCreate => trivial
  | .grant _ _ => h
  | .deduct _ _ => h.elim
  | .recordUsage _ => h
  | .resetFree _ => h.elim

/-- Claim C1: for every wallet state (satisfying the cached-total invariant) and every
positive deduction amount not exceeding the total, `deductCredits` called without a
preferred source drains buckets in the fixed priority order package, then subscription,
then free: each bucket is reduced by the minimum of its balance and the amount still
owed at that point, and the call succeeds with the total lowered by the full amount. -/
theorem claim1_deduct_priority_order (w : WalletBalance) (c : Int)
    (hinv : w.totalCredits = w.freeCredits + w.subscriptionCredits + w.packageCredits)
    (hf : 0 ≤ w.freeCredits) (hs : 0 ≤ w.subscriptionCredits) (hp : 0 ≤ w.packageCredits)
    (hpos : 0 < c) (hle : c ≤ w.totalCredits) :
    ∃ res, deductCredits w c none =
      .ok (res,
        { freeCredits := w.freeCredits - min w.freeCredits
            (c - min w.packageCredits c
               - min w.subscriptionCredits (c - min w.packageCredits c)),
          subscriptionCredits := w.subscriptionCredits
            - min w.subscriptionCredits (c - min w.packageCredits c),
          packageCredits := w.packageCredits - min w.packageCredits c,
          totalCredits := w.totalCredits - c }) ∧
      res.remainingCredits = w.totalCredits - c := by
  have hle' : ¬ w.totalCredits < c := not_lt.mpr hle
  obtain ⟨hP, hS, hF, hR⟩ := deductLocals_none_spec w c hp hs hf (le_of_lt hpos)
  have hr0 : (deductLocals w c none).remainingToDeduct = 0 := by
    rw [hR]; omega
  have hok := deductCredits_eq_ok w c none hle' (by omega)
  rw [hP, hS, hF] at hok
  have htot : (w.packageCredits - min w.packageCredits c)
      + (w.subscriptionCredits - min w.subscriptionCredits (c - min w.packageCredits c))
      + (w.freeCredits - min w.freeCredits
          (c - min w.packageCredits c
             - min w.subscriptionCredits (c - min w.packageCredits c)))
      = w.totalCredits - c := by omega
  rw [htot] at hok
  exact ⟨_, hok, rfl⟩

/-- Witness for C1 at the spec's example: balances package=50, subscription=30,
free=100 and a deduction of 70 drain package to 0 and subscription to 10, leaving
free untouched at 100 and the new total at 110. -/
theorem claim1_witness :
    ((180:Int) = 100 + 30 + 50) ∧ ((0:Int) ≤ 100) ∧ ((0:Int) ≤ 30) ∧ ((0:Int) ≤ 50) ∧
    ((0:Int) < 70) ∧ ((70:Int) ≤ 180) ∧
    (∃ res, deductCredits
        { freeCredits := 100, subscriptionCredits := 30, packageCredits := 50,
          totalCredits := 180 } 70 none =
      .ok (res,
        { freeCredits := 100, subscriptionCredits := 10, packageCredits := 0,
          totalCredits := 110 }) ∧
      res.remainingCredits = 110) := by
  refine ⟨by decide, by decide, by decide, by decide, by decide, by decide, ?_⟩
  exact claim1_deduct_priority_order
    { freeCredits := 100, subscriptionCredits := 30, packageCredits := 50, totalCredits := 180 }
    70 (by decide) (by decide) (by decide) (by decide) (by decide) (by decide)

/-- Claim C2: if the sum of all buckets is strictly less than the requested amount,
`deductCredits` fails with `InsufficientCredits` carrying required = the requested
amount and available = the wallet total, and the wallet row is left exactly as it was
(no partial mutation), whatever preference is passed. -/
theorem claim2_insufficient_error_no_mutation (w : WalletBalance) (c : Int)
    (src : Option CreditSource)
    (hsum : w.totalCredits = w.freeCredits + w.subscriptionCredits + w.packageCredits)
    (hlt : w.freeCredits + w.subscriptionCredits + w.packageCredits < c) :
    deductCredits w c src = .error { required := c, available := w.totalCredits } ∧
    applyDeduct w c src = w := by
  have h1 : w.totalCredits < c := by omega
  refine ⟨deductCredits_eq_error_low w c src h1, ?_⟩
  unfold applyDeduct
  rw [deductCredits_eq_error_low w c src h1]

/-- Witness for C2 at the spec's example: total balance 100, deduction of 150 fails
with `InsufficientCredits{required:150, available:100}` and balances are unchanged. -/
theorem claim2_witness :
    ((100:Int) = 100 + 0 + 0) ∧ ((100:Int) + 0 + 0 < 150) ∧
    (deductCredits
        { freeCredits := 100, subscriptionCredits := 0, packageCredits := 0,
          totalCredits := 100 } 150 none
      = .error { required := 150, available := 100 } ∧
     applyDeduct
        { freeCredits := 100, subscriptionCredits := 0, packageCredits := 0,
          totalCredits := 100 } 150 none
      = { freeCredits := 100, subscriptionCredits := 0, packageCredits := 0,
          totalCredits := 100 }) := by
  refine ⟨by decide, by decide, ?_⟩
  exact claim2_insufficient_error_no_mutation
    { freeCredits := 100, subscriptionCredits := 0, packageCredits := 0, totalCredits := 100 }
    150 none (by decide) (by decide)

/-- Counterexample to claim C3: with a ledger already holding an entry for key
`key1`, a second `createUsageLedgerEntry` with that key throws `IdempotencyError`
(a CONFLICT failure) — it does not return the prior entry as a successful result. -/
theorem claim3_counterexample :
    createUsageLedgerEntry "e2"
        [{ id := "e1", userId := "u1", credits := 500, status := .pending,
           idempotencyKey := "key1" }]
        { userId := "u1", credits := 500, idempotencyKey := "key1" }
      = .error .idempotencyConflict ∧
    createUsageLedgerEntry "e2"
        [{ id := "e1", userId := "u1", credits := 500, status := .pending,
           idempotencyKey := "key1" }]
        { userId := "u1", credits := 500, idempotencyKey := "key1" }
      ≠ .ok ({ id := "e1", userId := "u1", credits := 500, status := .pending,
               idempotencyKey := "key1" },
             [{ id := "e1", userId := "u1", credits := 500, status := .pending,
                idempotencyKey := "key1" }]) := by
  constructor
  · decide
  · decide

/-- Claim C3 as amended: calling `createUsageLedgerEntry` (the persistence step of
`recordUsage`) with an `idempotencyKey` for which a ledger entry already exists throws
`IdempotencyError` (CONFLICT, `Operation already processed`) instead of returning the
prior entry; it performs no insert and hence no second deduction, leaving the ledger —
and in particular the number of entries for that key — exactly as it was. -/
theorem claim3_idempotent_retry_amended (newId : String) (ledger : List UsageLedgerEntryRec)
    (params : RecordUsageParams)
    (h : (findUsageByIdempotencyKey ledger params.idempotencyKey).isSome = true) :
    createUsageLedgerEntry newId ledger params = .error .idempotencyConflict ∧
    runCreateUsageLedgerEntry newId ledger params = ledger ∧
    countEntriesWithKey (runCreateUsageLedgerEntry newId ledger params)
        params.idempotencyKey
      = countEntriesWithKey ledger params.idempotencyKey := by
  obtain ⟨e, he⟩ := Option.isSome_iff_exists.mp h
  have h1 : createUsageLedgerEntry newId ledger params = .error .idempotencyConflict := by
    unfold createUsageLedgerEntry
    rw [he]
  have h2 : runCreateUsageLedgerEntry newId ledger params = ledger := by
    unfold runCreateUsageLedgerEntry
    rw [h1]
  exact ⟨h1, h2, by rw [h2]⟩

/-- Witness for the amended C3: a retry against a one-entry ledger throws, writes
nothing, and the single entry for the key stays the single entry for the key. -/
theorem claim3_witness :
    (findUsageByIdempotencyKey
        [{ id := "e1", userId := "u1", credits := 500, status := .pending,
           idempotencyKey := "key1" }] "key1").isSome = true ∧
    (createUsageLedgerEntry "e2"
        [{ id := "e1", userId := "u1", credits := 500, status := .pending,
           idempotencyKey := "key1" }]
        { userId := "u1", credits := 500, idempotencyKey := "key1" }
      = .error .idempotencyConflict ∧
     runCreateUsageLedgerEntry "e2"
        [{ id := "e1", userId := "u1", credits := 500, status := .pending,
           idempotencyKey := "key1" }]
        { userId := "u1", credits := 500, idempotencyKey := "key1" }
      = [{ id := "e1", userId := "u1", credits := 500, status := .pending,
           idempotencyKey := "key1" }] ∧
     countEntriesWithKey
        (runCreateUsageLedgerEntry "e2"
          [{ id := "e1", userId := "u1", credits := 500, status := .pending,
             idempotencyKey := "key1" }]
          { userId := "u1", credits := 500, idempotencyKey := "key1" }) "key1"
      = countEntriesWithKey
          [{ id := "e1", userId := "u1", credits := 500, status := .pending,
             idempotencyKey := "key1" }] "key1") := by
  refine ⟨by decide, ?_⟩
  exact claim3_idempotent_retry_amended "e2"
    [{ id := "e1", userId := "u1", credits := 500, status := .pending,
       idempotencyKey := "key1" }]
    { userId := "u1", credits := 500, idempotencyKey := "key1" } (by decide)

/-- Claim C4: the `WalletBalance` invariant — `totalCredits` equals
`freeCredits + subscriptionCredits + packageCredits` and no bucket is negative — holds
after every sequence of wallet-engine calls (wallet creation, `grantCredits`,
`deductCredits`, `resetFreeCredits`, `recordUsage`) whose credit amounts are positive. -/
theorem claim4_wallet_invariant (ops : List WalletOp) (h : OpsPositive ops) :
    SysWalletInv (execOps initialSysState ops) := by
  suffices gen : ∀ (l : List WalletOp) (s : SysState),
      SysWalletInv s → OpsPositive l → SysWalletInv (execOps s l) from
    gen ops initialSysState trivial h
  intro l
  induction l with
  | nil => exact fun s hs _ => hs
  | cons op rest ih =>
      intro s hs hl
      exact ih (execOp s op)
        (execOp_inv s op hs (hl op (List.mem_cons_self op rest)))
        (fun o ho => hl o (List.mem_cons_of_mem op ho))

/-- Witness for C4 on a concrete call sequence exercising creation, a grant, an
automatic deduction, a free-tier reset and a preferred-source deduction. -/
theorem claim4_witness :
    OpsPositive [WalletOp.getOrCreate, .grant 500 .package, .deduct 600 none,
                 .resetFree 100000, .deduct 99000 (some .free)] ∧
    SysWalletInv (execOps initialSysState
      [WalletOp.getOrCreate, .grant 500 .package, .deduct 600 none,
       .resetFree 100000, .deduct 99000 (some .free)]) := by
  refine ⟨by decide, ?_⟩
  exact claim4_wallet_invariant
    [WalletOp.getOrCreate, .grant 500 .package, .deduct 600 none,
     .resetFree 100000, .deduct 99000 (some .free)] (by decide)

/-- Counterexample to claim C5: after wallet creation (which grants the initial
100000 free credits) followed by `resetFreeCredits(100000)`, the wallet total is
100000 while Σ `CreditGrant.credits` − Σ completed `UsageLedgerEntry.credits`
is 200000 − 0: the conservation equation fails on this operation sequence. -/
theorem claim5_counterexample :
    ¬ Conservation (execOps initialSysState [WalletOp.getOrCreate, .resetFree 100000]) ∧
    sysWalletTotal (execOps initialSysState [WalletOp.getOrCreate, .resetFree 100000])
      = 100000 ∧
    sumGrants (execOps initialSysState [WalletOp.getOrCreate, .resetFree 100000])
      = 200000 ∧
    sumCompletedLedger (execOps initialSysState [WalletOp.getOrCreate, .resetFree 100000])
      = 0 := by
  refine ⟨by decide, by decide, by decide, by decide⟩

/-- Claim C5 as amended: conservation — wallet total = Σ grants − Σ completed ledger
entries — holds at every quiescent point for every sequence of wallet creations,
grants and completed usage recordings with positive amounts; `resetFreeCredits` (which
records a grant of the full reset amount while changing the wallet only by the delta)
is excluded, as is a bare wallet deduction not paired with its ledger entry. -/
theorem claim5_conservation_amended (ops : List WalletOp) (h : OpsConservative ops) :
    Conservation (execOps initialSysState ops) := by
  suffices gen : ∀ (l : List WalletOp) (s : SysState),
      SysWalletInv s → Conservation s → OpsConservative l →
      SysWalletInv (execOps s l) ∧ Conservation (execOps s l) from
    (gen ops initialSysState trivial (by decide) h).2
  intro l
  induction l with
  | nil => exact fun s h1 h2 _ => ⟨h1, h2⟩
  | cons op rest ih =>
      intro s h1 h2 hl
      have hop := hl op (List.mem_cons_self op rest)
      exact ih (execOp s op)
        (execOp_inv s op h1 (opConservative_positive op hop))
        (execOp_conservation s op h1 h2 hop)
        (fun o ho => hl o (List.mem_cons_of_mem op ho))

/-- Witness for the amended C5 on a concrete sequence: creation, a package grant of
500, and a completed usage recording of 600. -/
theorem claim5_witness :
    OpsConservative [WalletOp.getOrCreate, .grant 500 .package, .recordUsage 600] ∧
    Conservation (execOps initialSysState
      [WalletOp.getOrCreate, .grant 500 .package, .recordUsage 600]) := by
  refine ⟨by decide, ?_⟩
  exact claim5_conservation_amended
    [WalletOp.getOrCreate, .grant 500 .package, .recordUsage 600] (by decide)

/-- Claim C6: the affordability check computes
`required = ceil(estimatedCredits * PRE_CHECK_BUFFER_MULTIPLIER)` with the configured
multiplier 1.2 = 6/5 and answers true exactly when the current total balance is at
least `required`; concretely, estimating 1000 credits against a balance of 1100 yields
`canAfford = false` (required 1200 > 1100) and against 1300 yields `true`. -/
theorem claim6_afford_buffer :
    (∀ (balance : WalletBalance) (est : ℚ),
      (canUserAfford balance est).required = ⌈est * PRE_CHECK_BUFFER_MULTIPLIER⌉ ∧
      (canUserAfford balance est).available = balance.totalCredits ∧
      ((canUserAfford balance est).canAfford = true ↔
        ⌈est * PRE_CHECK_BUFFER_MULTIPLIER⌉ ≤ balance.totalCredits)) ∧
    PRE_CHECK_BUFFER_MULTIPLIER = 6 / 5 ∧
    canUserAfford
        { freeCredits := 1100, subscriptionCredits := 0, packageCredits := 0,
          totalCredits := 1100 } 1000
      = { canAfford := false, available := 1100, required := 1200 } ∧
    canUserAfford
        { freeCredits := 1300, subscriptionCredits := 0, packageCredits := 0,
          totalCredits := 1300 } 1000
      = { canAfford := true, available := 1300, required := 1200 } := by
  refine ⟨?_, ?_, ?_, ?_⟩
  · intro balance est
    refine ⟨rfl, rfl, ?_⟩
    simp [canUserAfford]
  · norm_num [PRE_CHECK_BUFFER_MULTIPLIER]
  · simp only [canUserAfford, AffordabilityCheck.mk.injEq]
    norm_num [PRE_CHECK_BUFFER_MULTIPLIER]
  · simp only [canUserAfford, AffordabilityCheck.mk.injEq]
    norm_num [PRE_CHECK_BUFFER_MULTIPLIER]

/-- Counterexample to claim C7: `reconcileBalance` does not restrict the usage sum to
entries with status Completed.  With one grant of 100000, a wallet total of 100000
and a single pending ledger entry of 50000, the code computes a calculated balance of
50000 (flagging an adjustment), whereas the claimed Completed-only computation gives
100000 and reports consistency. -/
theorem claim7_counterexample :
    (reconcileBalance
        { freeCredits := 100000, subscriptionCredits := 0, packageCredits := 0,
          totalCredits := 100000 }
        [{ source := .free, credits := 100000 }]
        [{ credits := 50000, status := .pending }]).calculatedTotal = 50000 ∧
    (reconcileBalanceSpec
        { freeCredits := 100000, subscriptionCredits := 0, packageCredits := 0,
          totalCredits := 100000 }
        [{ source := .free, credits := 100000 }]
        [{ credits := 50000, status := .pending }]).calculatedTotal = 100000 ∧
    (reconcileBalance
        { freeCredits := 100000, subscriptionCredits := 0, packageCredits := 0,
          totalCredits := 100000 }
        [{ source := .free, credits := 100000 }]
        [{ credits := 50000, status := .pending }]).needsAdjustment = true ∧
    (reconcileBalanceSpec
        { freeCredits := 100000, subscriptionCredits := 0, packageCredits := 0,
          totalCredits := 100000 }
        [{ source := .free, credits := 100000 }]
        [{ credits := 50000, status := .pending }]).needsAdjustment = false := by
  refine ⟨by decide, by decide, ?_, ?_⟩
  · simp only [reconcileBalance, RECONCILIATION_THRESHOLD_PERCENT]
    norm_num
  · have hfil : ([{ credits := 50000, status := .pending }] : List LedgerRec).filter
        (fun e => e.status == .completed) = [] := by decide
    simp only [reconcileBalanceSpec, RECONCILIATION_THRESHOLD_PERCENT, hfil]
    norm_num

/-- Claim C7 as amended: reconciliation recomputes the calculated balance as the sum
of all the user's grants minus the sum of ALL the user's ledger entries regardless of
status (the source query has no Completed filter), and reports that no adjustment is
needed exactly when the absolute difference from the live wallet total is at most the
configured 1% of that total. -/
theorem claim7_reconcile_amended (w : WalletBalance) (grants : List CreditGrantRec)
    (ledger : List LedgerRec) :
    (reconcileBalance w grants ledger).calculatedTotal
      = (grants.map (·.credits)).sum - (ledger.map (·.credits)).sum ∧
    (reconcileBalance w grants ledger).difference
      = |w.totalCredits
          - ((grants.map (·.credits)).sum - (ledger.map (·.credits)).sum)| ∧
    ((reconcileBalance w grants ledger).needsAdjustment = false ↔
      ((reconcileBalance w grants ledger).difference : ℚ)
        ≤ (w.totalCredits : ℚ) * (RECONCILIATION_THRESHOLD_PERCENT / 100)) := by
  refine ⟨rfl, rfl, ?_⟩
  simp [reconcileBalance, not_lt]

/-- Counterexample to claim C8: granting 500 package credits to a user without a
wallet row does not leave a total of 500 — `getOrCreateWallet` seeds the new row with
100000 free credits, so the total is 100500. -/
theorem claim8_counterexample :
    sysWalletTotal (execOps initialSysState [WalletOp.grant 500 .package]) ≠ 500 ∧
    sysWalletTotal (execOps initialSysState [WalletOp.grant 500 .package]) = 100500 ∧
    (execOps initialSysState [WalletOp.grant 500 .package]).wallet
      = some { freeCredits := 100000, subscriptionCredits := 0, packageCredits := 500,
               totalCredits := 100500 } := by
  refine ⟨by decide, by decide, by decide⟩

/-- Claim C8 as amended: when `grantCredits` is called for a user who has no wallet
row, the row is created seeded with the 100000 initial free credits (with a matching
initial free grant record) before the granted amount is added, so after the grant the
user's total equals 100000 plus the granted amount, whatever the source. -/
theorem claim8_grant_creates_wallet_amended (c : Int) (src : CreditSource)
    (hpos : 0 < c) :
    sysWalletTotal (execOps initialSysState [WalletOp.grant c src]) = 100000 + c := by
  have h1 : ({ wallet := none, grants := [{ source := src, credits := c }],
               ledger := [] } : SysState).wallet = none := rfl
  show sysWalletTotal (execGrant initialSysState c src) = 100000 + c
  simp only [execGrant, initialSysState, List.nil_append, getOrCreateWallet_none _ h1]
  cases src <;> simp [sysWalletTotal, grantWalletUpdate, initialWallet]

/-- Witness for the amended C8: a package grant of 500 to a fresh user leaves a
total of 100500. -/
theorem claim8_witness :
    ((0:Int) < 500) ∧
    sysWalletTotal (execOps initialSysState [WalletOp.grant 500 .package]) = 100500 := by
  refine ⟨by decide, ?_⟩
  exact claim8_grant_creates_wallet_amended 500 .package (by decide)

/-- Claim C9: for every wallet state and positive amount, `deductCredits` with
preferred source `'promo'` throws `InsufficientCredits{credits, totalCredits}` even
when the buckets hold more than enough: the preferred-source switch handles only
`'package'`, `'subscription'` and `'free'`, so a `'promo'` preference deducts nothing
and always falls through to the failure path. -/
theorem claim9_promo_preference_always_throws (w : WalletBalance) (c : Int)
    (hpos : 0 < c) :
    deductCredits w c (some .promo)
      = .error { required := c, available := w.totalCredits } := by
  by_cases h1 : w.totalCredits < c
  · exact deductCredits_eq_error_low w c _ h1
  · apply deductCredits_eq_error_remaining w c _ h1
    have h : deductLocals w c (some .promo)
        = { remainingToDeduct := c, deductedFrom := none,
            newPackageCredits := w.packageCredits,
            newSubscriptionCredits := w.subscriptionCredits,
            newFreeCredits := w.freeCredits } := rfl
    rw [h]
    exact hpos

/-- Witness for C9: a wallet holding 3000 credits across all buckets still fails a
promo-preferred deduction of 10. -/
theorem claim9_witness :
    ((0:Int) < 10) ∧
    deductCredits
        { freeCredits := 1000, subscriptionCredits := 1000, packageCredits := 1000,
          totalCredits := 3000 } 10 (some .promo)
      = .error { required := 10, available := 3000 } := by
  refine ⟨by decide, ?_⟩
  exact claim9_promo_preference_always_throws
    { freeCredits := 1000, subscriptionCredits := 1000, packageCredits := 1000,
      totalCredits := 3000 } 10 (by decide)

/-- Claim C10: `grantCredits` with source `'promo'` performs exactly the wallet update
of a `'package'` grant — it increments the `packageCredits` bucket and leaves the free
and subscription buckets alone, so promo credits are indistinguishable from package
credits in the wallet balance and there is no separate promo bucket. -/
theorem claim10_promo_grant_hits_package_bucket (w : WalletBalance) (c : Int) :
    grantWalletUpdate w c .promo = grantWalletUpdate w c .package ∧
    (grantWalletUpdate w c .promo).packageCredits = w.packageCredits + c ∧
    (grantWalletUpdate w c .promo).freeCredits = w.freeCredits ∧
    (grantWalletUpdate w c .promo).subscriptionCredits = w.subscriptionCredits :=
  ⟨rfl, rfl, rfl, rfl⟩
